import Mathlib

/-!
Verification of the JOB-SEARCH repository (src/fn.py, src/branch.py,
src/JOB.py): a shallow embedding of the recency classifier
(is_recent_job), relevance scorer (filter_public_health_jobs), source
adapters (scrape_reliefweb, scrape_reliefweb_html, scrape_devex,
scrape_unjobs), the aggregation loop (scrape_development_sites, main)
and the URL deduplication, together with theorems settling the
specification claims.

Network responses, the evaluation-time calendar dates and the scraping
timestamp are inputs of the program, so they appear here as explicit
parameters (an Env structure per variant); everything the repository
computes from them is translated directly from the source.
-/

set_option linter.all false

/-! ## Python string primitives: str.lower and the `in` substring test -/
/-- Ascii lower-casing of one character, as Python str.lower acts on the
ascii range this repository manipulates. -/
def lowerChar (c : Char) : Char :=
  if 'A' ≤ c ∧ c ≤ 'Z' then Char.ofNat (c.toNat + 32) else c

/-- Python str.lower. -/
def lowerString (s : String) : String := ⟨s.data.map lowerChar⟩

/-- First list is a prefix of the second. -/
def isPrefixAt : List Char → List Char → Bool
  | [], _ => true
  | _ :: _, [] => false
  | a :: as, b :: bs => a == b && isPrefixAt as bs

/-- containsSub needle hay decides the Python test needle in hay. -/
def containsSub : List Char → List Char → Bool
  | needle, [] => needle.isEmpty
  | needle, c :: t => isPrefixAt needle (c :: t) || containsSub needle t

/-- The Python expression needle in hay on str values. -/
def pyIn (needle hay : String) : Bool := containsSub needle.data hay.data

/-- Python str.strip: drop ascii whitespace at both ends. -/
def isWsChar (c : Char) : Bool :=
  c = ' ' || c = '\t' || c = '\n' || c = '\r' || c = '\x0b' || c = '\x0c'

def stripChars (l : List Char) : List Char :=
  ((l.dropWhile isWsChar).reverse.dropWhile isWsChar).reverse

def stripStr (s : String) : String := ⟨stripChars s.data⟩

/-! ## Calendar dates and strftime, for the recency classifier

is_recent_job compares against datetime.now().strftime("%d %b %Y") and
the same rendering of the previous day.  The evaluation-time dates are
parameters; the strftime rendering below is the code's format string:
zero-padded day, abbreviated month name, year. -/
inductive Month
  | jan | feb | mar | apr | may | jun | jul | aug | sep | octm | nov | decm
deriving DecidableEq

/-- The upper-case initial of the %b month abbreviation. -/
def monthUpper : Month → Char
  | .jan => 'J' | .feb => 'F' | .mar => 'M' | .apr => 'A' | .may => 'M' | .jun => 'J'
  | .jul => 'J' | .aug => 'A' | .sep => 'S' | .octm => 'O' | .nov => 'N' | .decm => 'D'

/-- The two lower-case letters completing the %b month abbreviation. -/
def monthTail : Month → List Char
  | .jan => ['a', 'n'] | .feb => ['e', 'b'] | .mar => ['a', 'r'] | .apr => ['p', 'r']
  | .may => ['a', 'y'] | .jun => ['u', 'n'] | .jul => ['u', 'l'] | .aug => ['u', 'g']
  | .sep => ['e', 'p'] | .octm => ['c', 't'] | .nov => ['o', 'v'] | .decm => ['e', 'c']

def monthAbbrev (m : Month) : List Char := monthUpper m :: monthTail m

structure Date where
  day : Nat
  month : Month
  year : Nat
deriving DecidableEq

/-- strftime %d: zero-padded two-digit day. -/
def pad2 (n : Nat) : List Char :=
  if n < 10 then '0' :: (Nat.repr n).data else (Nat.repr n).data

/-- strftime "%d %b %Y" as a character list. -/
def fmtDateChars (d : Date) : List Char :=
  pad2 d.day ++ ' ' :: (monthAbbrev d.month ++ ' ' :: (Nat.repr d.year).data)

/-- strftime "%d %b %Y". -/
def fmtDate (d : Date) : String := ⟨fmtDateChars d⟩

/-! ## The recency classifier (fn.py 25-42, branch.py 61-78; identical) -/
/-- The fixed lower-case phrase indicators of is_recent_job. -/
def recentPhrases : List String :=
  ["hours ago", "hour ago", "today", "just now", "1 day ago", "yesterday"]

/-- is_recent_job: empty text is falsy and yields False; otherwise the
text is lower-cased and each indicator (the six phrases plus the
strftime renderings of the current and previous day) is searched for as
a substring. -/
def is_recent_job (today prev : Date) (dateText : String) : Bool :=
  if dateText = "" then false
  else
    (recentPhrases ++ [fmtDate today, fmtDate prev]).any
      (fun indicator => pyIn indicator (lowerString dateText))

/-! ## Python round(x, 2)

Python round is round-half-to-even.  The scores this repository rounds
are fractions m/23 and m/16 with 0 ≤ m ≤ 23; on that grid the binary
floating-point value rounds exactly as the rational does (the only
decimal ties, m/16 with m ≡ 2 mod 4, are dyadic and hence exact in
binary), so the rational model below reproduces the Python results. -/
def roundHalfEven (q : ℚ) : ℤ :=
  let n : ℤ := ⌊q⌋
  let r : ℚ := q - n
  if r < 1 / 2 then n
  else if 1 / 2 < r then n + 1
  else if n % 2 = 0 then n else n + 1

/-- Python round(q, 2). -/
def pyRound2 (q : ℚ) : ℚ := (roundHalfEven (q * 100) : ℚ) / 100

/-! ## The normalized job record

A Python dict built by the fn.py adapters.  relevance_score and
is_public_health are keys only added by filter_public_health_jobs, so
they are Options defaulting to none. -/
structure Job where
  title : String
  organization : String
  location : String
  url : String
  date_posted : String
  source : String
  scraped_at : String
  search_term : String
  is_recent : Bool
  relevance_score : Option ℚ := none
  is_public_health : Option Bool := none
deriving DecidableEq

/-! ## The relevance scorer of fn.py (filter_public_health_jobs, 232-259)

The keyword list is copied verbatim from the source; note that "health"
appears twice in it (6th and 17th entries). -/
def public_health_keywords : List String :=
  ["public health", "monitoring", "evaluation", "m&e", "data",
   "health", "strategic information", "commcare", "dhis2",
   "survey", "research", "impact assessment", "health program",
   "global health", "health systems", "epidemiology", "health",
   "maternal", "child health", "hiv", "tb", "malaria", "nutrition"]

/-- The lower-cased text blob scored by fn.py: title plus organization. -/
def job_text (j : Job) : String := lowerString (j.title ++ " " ++ j.organization)

/-- matches = sum(1 for keyword in public_health_keywords if keyword in job_text). -/
def matchCount (j : Job) : Nat :=
  (public_health_keywords.filter fun k => pyIn k (job_text j)).length

/-- relevance_score = matches / len(public_health_keywords), before rounding. -/
def raw_relevance_score (j : Job) : ℚ :=
  (matchCount j : ℚ) / (public_health_keywords.length : ℚ)

/-- The rounded score the fn.py scorer stores on the record. -/
def fn_relevance_score (j : Job) : ℚ := pyRound2 (raw_relevance_score j)

/-- filter_public_health_jobs (fn.py): each job is scored; jobs whose
unrounded score reaches the hard-coded 0.2 threshold are tagged and
appended to the returned list, the others are tagged in place but not
returned.  (The Python float comparison score >= 0.2 agrees with the
exact rational comparison on every reachable score m/23.) -/
def filter_public_health_jobs : List Job → List Job
  | [] => []
  | j :: rest =>
    if (0.2 : ℚ) ≤ raw_relevance_score j then
      { j with relevance_score := some (fn_relevance_score j),
               is_public_health := some true } :: filter_public_health_jobs rest
    else
      filter_public_health_jobs rest

/-! ## The relevance scorer of branch.py (filter_public_health_jobs, 251-277)

16 keywords, no duplicate, threshold 0.3, and the auxiliary field is the
(never set by its adapters) description, read with default "". -/
structure BJob where
  title : String
  organization : String
  location : String
  url : Option String
  date_posted : String
  source : String
  scraped_at : String
  search_term : String := ""
  is_recent : Bool := false
  description : Option String := none
  relevance_score : Option ℚ := none
  is_public_health : Option Bool := none
deriving DecidableEq

def branch_public_health_keywords : List String :=
  ["public health", "monitoring", "evaluation", "m&e", "data",
   "health", "strategic information", "commcare", "dhis2",
   "survey", "research", "impact assessment", "health program",
   "global health", "health systems", "epidemiology"]

/-- The lower-cased text blob scored by branch.py: title plus description. -/
def branch_job_text (j : BJob) : String :=
  lowerString (j.title ++ " " ++ j.description.getD "")

def branch_matchCount (j : BJob) : Nat :=
  (branch_public_health_keywords.filter fun k => pyIn k (branch_job_text j)).length

def branch_raw_relevance_score (j : BJob) : ℚ :=
  (branch_matchCount j : ℚ) / (branch_public_health_keywords.length : ℚ)

def branch_relevance_score (j : BJob) : ℚ := pyRound2 (branch_raw_relevance_score j)

def branch_filter_public_health_jobs : List BJob → List BJob
  | [] => []
  | j :: rest =>
    if (0.3 : ℚ) ≤ branch_raw_relevance_score j then
      { j with relevance_score := some (branch_relevance_score j),
               is_public_health := some true } :: branch_filter_public_health_jobs rest
    else
      branch_filter_public_health_jobs rest

/-! ## Spec-side distinct-keyword counts, for the claim about the score
formula: the number of distinct vocabulary keywords appearing in the
scored text (the vocabulary as a set, duplicates removed). -/
def fn_distinct_matches (j : Job) : Nat :=
  ((public_health_keywords.dedup).filter fun k => pyIn k (job_text j)).length

def branch_distinct_matches (j : BJob) : Nat :=
  ((branch_public_health_keywords.dedup).filter fun k => pyIn k (branch_job_text j)).length

/-! ## URL deduplication (fn.py main 363-369, JOB.py 238-244,
branch.py 482-488; identical loop) -/
/-- The dedup loop: seen_urls is the set of urls already kept. -/
def dedup_go : List Job → List String → List Job
  | [], _ => []
  | j :: rest, seen =>
    if j.url ∈ seen then dedup_go rest seen
    else j :: dedup_go rest (j.url :: seen)

/-- unique_jobs: the deduplicated collection the aggregation code builds
from the accumulated list. -/
def unique_jobs (all_jobs : List Job) : List Job := dedup_go all_jobs []

/-- Spec-side formulation of the dedup contract: keep the first
occurrence of each url, discard every later posting with that url. -/
def firstOccurrences : List Job → List Job
  | [] => []
  | j :: rest =>
    j :: firstOccurrences (rest.filter fun x => x.url ≠ j.url)
termination_by l => l.length
decreasing_by
  simp only [List.length_cons]
  exact Nat.lt_succ_of_le (List.length_filter_le _ _)

/-! ## The duplicate "health" entry in the fn.py keyword list -/
/-- Entries 0-4 of public_health_keywords. -/
def phkA : List String :=
  ["public health", "monitoring", "evaluation", "m&e", "data"]

/-- Entries 6-15 of public_health_keywords, between its two "health"
entries. -/
def phkB : List String :=
  ["strategic information", "commcare", "dhis2",
   "survey", "research", "impact assessment", "health program",
   "global health", "health systems", "epidemiology"]

/-- Entries 17-22 of public_health_keywords. -/
def phkC : List String :=
  ["maternal", "child health", "hiv", "tb", "malaria", "nutrition"]

/-- A posting whose scored text contains exactly one distinct vocabulary
keyword, "health". -/
def healthOnlyJob : Job :=
  { title := "health", organization := "", location := "", url := "u",
    date_posted := "", source := "reliefweb", scraped_at := "",
    search_term := "", is_recent := false }

/-! ## The fn.py source adapters

The network is an input: an Env supplies, per search term, the parsed
ReliefWeb API payload, the parsed ReliefWeb search-page article
elements and the parsed Devex search-page elements, each as an Except
(error = the request/parse raised), plus the evaluation-time dates and
the scraped_at timestamp.  URL construction feeds only the request, so
the Env is keyed directly by the search term.  Each adapter also
returns the trace of HTTP requests it attempts, to reason about the
structured-first fallback behavior. -/
/-- One item of the ReliefWeb API payload data array.  id raises
KeyError when absent (item is skipped); the other fields are read with
dict.get defaults.  source is the list of source-dict names (absent key
and empty list are both falsy and merged); country is the list of
country-dict names. -/
structure ApiItem where
  id : Option Nat
  title : Option String
  source : List (Option String)
  country : List (Option String)
  dateCreated : Option String
deriving DecidableEq

/-- The a element inside an h3 of a ReliefWeb search-page article. -/
structure RwLink where
  text : String
  href : Option String
deriving DecidableEq

/-- One article.rw-river-article--job element of the ReliefWeb search
page: an optional h3 possibly holding an a, and optional dd, country
span and time elements. -/
structure RwArticle where
  h3a : Option (Option RwLink)
  dd : Option String
  country : Option String
  timeText : Option String
deriving DecidableEq

/-- One Devex search-page element: optional h3 and h2 headings, and an
optional a element whose href attribute may be missing. -/
structure DevexCard where
  h3 : Option String
  h2 : Option String
  aHref : Option (Option String)
deriving DecidableEq

/-- The parsed Devex search page: the div.job-item|job-card elements
and the article elements used when the former are absent. -/
structure DevexPage where
  jobCards : List DevexCard
  articles : List DevexCard
deriving DecidableEq

/-- The HTTP requests an fn.py adapter can attempt. -/
inductive Request
  | reliefwebApi
  | reliefwebSearchPage
  | devexSearchPage
deriving DecidableEq

/-- The inputs of one fn.py scraping run. -/
structure Env where
  api : String → Nat → Except String (List ApiItem)
  rwHtml : String → Except String (List RwArticle)
  devexHtml : String → Except String DevexPage
  today : Date
  prev : Date
  nowIso : String

/-- The per-item body of scrape_reliefweb: field extraction with the
dict.get defaults of fn.py 59-72; a missing id raises and the item is
skipped by the per-item except handler. -/
def extract_api_item (env : Env) (term : String) (item : ApiItem) : Option Job :=
  match item.id with
  | none => none
  | some i =>
    let datePosted := item.dateCreated.getD "Unknown"
    some
      { title := item.title.getD "No title",
        organization :=
          match item.source with
          | [] => "Unknown Organization"
          | o :: _ => o.getD "Unknown Organization",
        location :=
          let names := String.intercalate ", " (item.country.map (fun o => o.getD ""))
          if names = "" then "Multiple Locations" else names,
        url := "https://reliefweb.int/job/" ++ Nat.repr i,
        date_posted := datePosted,
        source := "reliefweb",
        scraped_at := env.nowIso,
        search_term := term,
        is_recent := is_recent_job env.today env.prev datePosted }

/-- The per-element body of scrape_reliefweb_html (fn.py 95-128): an
article without an h3, or whose h3 has no a, is skipped; organization,
location and date fall back to their defaults when the element is
absent. -/
def extract_rw_article (env : Env) (term : String) (art : RwArticle) : Option Job :=
  match art.h3a with
  | none => none
  | some none => none
  | some (some link) =>
    let datePosted := match art.timeText with
      | some t => stripStr t
      | none => "Unknown"
    some
      { title := stripStr link.text,
        organization :=
          match art.dd with
          | some o => stripStr o
          | none => "Unknown Organization",
        location :=
          match art.country with
          | some l => stripStr l
          | none => "Multiple Locations",
        url := "https://reliefweb.int" ++ link.href.getD "",
        date_posted := datePosted,
        source := "reliefweb",
        scraped_at := env.nowIso,
        search_term := term,
        is_recent := is_recent_job env.today env.prev datePosted }

/-- scrape_reliefweb_html (fn.py 85-138), with its attempted-request
trace: the search-page GET is attempted; on request failure the except
handler returns the empty list. -/
def scrape_reliefweb_htmlT (env : Env) (term : String) (maxJobs : Nat) :
    List Request × List Job :=
  ([Request.reliefwebSearchPage],
   match env.rwHtml term with
   | .error _ => []
   | .ok arts => (arts.take maxJobs).filterMap (extract_rw_article env term))

/-- scrape_reliefweb (fn.py 44-83), with its attempted-request trace:
the API GET is attempted first; if the request, status check or JSON
decode raises, the except handler falls back to HTML scraping. -/
def scrape_reliefwebT (env : Env) (term : String) (maxJobs : Nat) :
    List Request × List Job :=
  match env.api term maxJobs with
  | .ok items =>
    ([Request.reliefwebApi], (items.take maxJobs).filterMap (extract_api_item env term))
  | .error _ =>
    let fb := scrape_reliefweb_htmlT env term maxJobs
    (Request.reliefwebApi :: fb.1, fb.2)

def scrape_reliefweb (env : Env) (term : String) (maxJobs : Nat) : List Job :=
  (scrape_reliefwebT env term maxJobs).2

/-! ### The Devex adapter and its organization regexes (fn.py 140-205)

organization defaults to "Development Organization" and is overridden by
the first of the two patterns matching the title:
pattern 1 is at, whitespace, then a capture of an upper-case letter
followed by letters, whitespace or ampersands; pattern 2 is a hyphen,
optional whitespace, then the same capture shape anchored at the end.
The searches below reproduce re.search with those patterns: leftmost
position, greedy character-class runs (backtracking inside a greedy
whitespace run only offers more whitespace, never the required
upper-case letter, so the maximal-run reading is exact). -/
def upperAZ (c : Char) : Bool := 'A' ≤ c && c ≤ 'Z'

def orgClassChar (c : Char) : Bool :=
  ('a' ≤ c && c ≤ 'z') || ('A' ≤ c && c ≤ 'Z') || isWsChar c || c = '&'

/-- Match of pattern 1 starting at this position. -/
def devexPat1At : List Char → Option (List Char)
  | 'a' :: 't' :: rest =>
    let ws := rest.takeWhile isWsChar
    if ws.isEmpty then none
    else
      match rest.dropWhile isWsChar with
      | c :: cs =>
        if upperAZ c then
          let run := cs.takeWhile orgClassChar
          if run.isEmpty then none else some (c :: run)
        else none
      | [] => none
  | _ => none

def devexSearch1 : List Char → Option (List Char)
  | [] => none
  | c :: rest =>
    match devexPat1At (c :: rest) with
    | some g => some g
    | none => devexSearch1 rest

/-- Match of pattern 2 (anchored at the end) starting at this position. -/
def devexPat2At : List Char → Option (List Char)
  | '-' :: rest =>
    (match rest.dropWhile isWsChar with
     | c :: cs =>
       if upperAZ c && !cs.isEmpty && cs.all orgClassChar then some (c :: cs)
       else none
     | [] => none)
  | _ => none

def devexSearch2 : List Char → Option (List Char)
  | [] => none
  | c :: rest =>
    match devexPat2At (c :: rest) with
    | some g => some g
    | none => devexSearch2 rest

/-- The loop over org_patterns: the first matching pattern sets the
organization (match.group(1).strip()). -/
def devexOrganization (title : String) : String :=
  match devexSearch1 title.data with
  | some g => ⟨stripChars g⟩
  | none =>
    match devexSearch2 title.data with
    | some g => ⟨stripChars g⟩
    | none => "Development Organization"

/-- The per-element body of scrape_devex (fn.py 157-195): an element
with neither h3 nor h2 is skipped; the link href defaults to "" and a
non-absolute url is prefixed with the site root; date_posted and
is_recent are hard-coded. -/
def extract_devex_card (env : Env) (term : String) (card : DevexCard) : Option Job :=
  match card.h3 <|> card.h2 with
  | none => none
  | some heading =>
    let title := stripStr heading
    let url0 := match card.aHref with
      | none => ""
      | some h => h.getD ""
    some
      { title := title,
        organization := devexOrganization title,
        location := "Global",
        url := if url0 ≠ "" ∧ ¬ url0.startsWith "http"
               then "https://www.devex.com" ++ url0 else url0,
        date_posted := "Recent",
        source := "devex",
        scraped_at := env.nowIso,
        search_term := term,
        is_recent := true }

/-- scrape_devex (fn.py 140-205), with its attempted-request trace: a
single search-page GET, no structured-data path; request failure yields
the empty list.  The job-card elements are used when present, otherwise
the article elements. -/
def scrape_devexT (env : Env) (term : String) (maxJobs : Nat) :
    List Request × List Job :=
  ([Request.devexSearchPage],
   match env.devexHtml term with
   | .error _ => []
   | .ok page =>
     let first := page.jobCards.take maxJobs
     let els := if first.isEmpty then page.articles.take maxJobs else first
     els.filterMap (extract_devex_card env term))

def scrape_devex (env : Env) (term : String) (maxJobs : Nat) : List Job :=
  (scrape_devexT env term maxJobs).2

/-! ## The fn.py aggregation (scrape_development_sites 207-230, main
325-375) -/
/-- The per-term site loop: string-keyed dispatch to the adapters with
their default limits (20 for ReliefWeb, 15 for Devex), unknown site
keys skipped; a per-site failure is caught and the loop continues (the
adapters already absorb their own failures and return lists). -/
def scrape_development_sites (env : Env) (term : String) : List String → List Job
  | [] => []
  | site :: rest =>
    (if site = "reliefweb" then scrape_reliefweb env term 20
     else if site = "devex" then scrape_devex env term 15
     else []) ++ scrape_development_sites env term rest

/-- The accumulation loop of main (fn.py 344-361): for each search term
the sites are scraped, the batch is passed through the relevance filter
and the kept jobs are appended.  The configured max_jobs_per_search is
never passed on, so the adapters run with their defaults. -/
def main_all_jobs (env : Env) (search_terms sites : List String) : List Job :=
  (search_terms.map
    (fun t => filter_public_health_jobs (scrape_development_sites env t sites))).join

/-- The collection main hands to the presentation layer (fn.py 363-372):
the accumulated filtered jobs, deduplicated by url.  (The empty-config
early returns of main yield the empty collection here as well.) -/
def run_main (env : Env) (search_terms sites : List String) : List Job :=
  unique_jobs (main_all_jobs env search_terms sites)

/-! ## The branch.py UNjobs adapter (scrape_unjobs 156-185,
extract_unjobs_job_data 187-224)

Selenium find_element raises when the selector matches nothing, so the
heading and the link element are required (their absence aborts the
extraction and the outer handler returns None); organization and
location have inner try handlers with defaults.  get_attribute can
return null, so the href is an Option inside the present link. -/
structure UnjobsEl where
  heading : Option String
  linkHref : Option (Option String)
  org : Option String
  duty : Option String
deriving DecidableEq

/-- The inputs of one branch.py scraping run (only the parts the claims
exercise). -/
structure BEnv where
  unjobsPage : String → Except String (List UnjobsEl)
  today : Date
  prev : Date
  nowIso : String

/-- extract_unjobs_job_data: date_posted is the literal "Recent". -/
def extract_unjobs_job_data (env : BEnv) (el : UnjobsEl) : Option BJob :=
  match el.heading, el.linkHref with
  | some heading, some href =>
    some
      { title := stripStr heading,
        organization :=
          match el.org with
          | some o => stripStr o
          | none => "UN Agency",
        location :=
          match el.duty with
          | some l => stripStr l
          | none => "Multiple Duty Stations",
        url := href,
        date_posted := "Recent",
        source := "unjobs",
        scraped_at := env.nowIso }
  | _, _ => none

/-- scrape_unjobs: the page elements (up to max_jobs) are extracted;
each successful extraction is tagged with the search term and the
recency of its date_posted; a page-level failure yields the empty
list. -/
def scrape_unjobs (env : BEnv) (term : String) (maxJobs : Nat) : List BJob :=
  match env.unjobsPage term with
  | .error _ => []
  | .ok els =>
    (els.take maxJobs).filterMap fun el =>
      (extract_unjobs_job_data env el).map fun j =>
        { j with search_term := term,
                 is_recent := is_recent_job env.today env.prev j.date_posted }

/-! ## Concrete inputs for the counterexamples and witnesses -/
/-- A typical evaluation date. -/
def evalToday : Date := ⟨12, Month.octm, 2025⟩

def evalPrev : Date := ⟨11, Month.octm, 2025⟩

/-- A ReliefWeb API item whose title passes the fn.py relevance
threshold. -/
def apiItemME (n : Nat) : ApiItem :=
  { id := some n,
    title := some "public health monitoring and evaluation",
    source := [some "WHO"],
    country := [],
    dateCreated := some "2025-10-10T00:00:00+00:00" }

/-- An environment whose ReliefWeb API call succeeds with six items. -/
def envSixItems : Env :=
  { api := fun _ _ => .ok [apiItemME 1, apiItemME 2, apiItemME 3,
                           apiItemME 4, apiItemME 5, apiItemME 6],
    rwHtml := fun _ => .error "not reached",
    devexHtml := fun _ => .error "not reached",
    today := evalToday, prev := evalPrev,
    nowIso := "2025-10-12T00:00:00" }

/-- An API item whose title matches no vocabulary keyword. -/
def apiItemOffTopic : ApiItem :=
  { id := some 7,
    title := some "astronaut",
    source := [some "SpaceX"],
    country := [],
    dateCreated := some "2025-10-10T00:00:00+00:00" }

/-- An environment whose ReliefWeb API call succeeds with one
zero-relevance item. -/
def envOffTopic : Env :=
  { api := fun _ _ => .ok [apiItemOffTopic],
    rwHtml := fun _ => .error "not reached",
    devexHtml := fun _ => .error "not reached",
    today := evalToday, prev := evalPrev,
    nowIso := "2025-10-12T00:00:00" }

/-- An environment in which every fetch raises. -/
def envAllFail : Env :=
  { api := fun _ _ => .error "timeout",
    rwHtml := fun _ => .error "timeout",
    devexHtml := fun _ => .error "timeout",
    today := evalToday, prev := evalPrev,
    nowIso := "2025-10-12T00:00:00" }

/-- An environment whose Devex page holds one job-card element. -/
def envDevexOne : Env :=
  { api := fun _ _ => .error "not reached",
    rwHtml := fun _ => .error "not reached",
    devexHtml := fun _ => .ok
      { jobCards := [{ h3 := some "Health Data Officer at Global Fund",
                       h2 := none,
                       aHref := some (some "/jobs/health-data-officer") }],
        articles := [] },
    today := evalToday, prev := evalPrev,
    nowIso := "2025-10-12T00:00:00" }

/-- A UNjobs page with one extractable element. -/
def benvOne : BEnv :=
  { unjobsPage := fun _ => .ok
      [{ heading := some "Monitoring and Evaluation Officer",
         linkHref := some (some "https://unjobs.org/vacancies/123"),
         org := none,
         duty := none }],
    today := evalToday, prev := evalPrev,
    nowIso := "2025-10-12T00:00:00" }

/-- isOkE: whether an Except is a success. -/
def isOkE {α : Type} : Except String α → Bool
  | .ok _ => true
  | .error _ => false

/-- The posting the ReliefWeb API adapter produces from apiItemME n. -/
def jobME (n : Nat) : Job :=
  { title := "public health monitoring and evaluation",
    organization := "WHO",
    location := "Multiple Locations",
    url := "https://reliefweb.int/job/" ++ Nat.repr n,
    date_posted := "2025-10-10T00:00:00+00:00",
    source := "reliefweb",
    scraped_at := "2025-10-12T00:00:00",
    search_term := "monitoring and evaluation",
    is_recent := false }

/-- The scored posting the fn.py filter emits for jobME-shaped input. -/
def tagME (n : Nat) : Job :=
  { jobME n with relevance_score := some (fn_relevance_score (jobME n)),
                 is_public_health := some true }

/-- The posting scrape_unjobs produces from the benvOne page. -/
def unjobsJobOut : BJob :=
  { title := "Monitoring and Evaluation Officer",
    organization := "UN Agency",
    location := "Multiple Duty Stations",
    url := some "https://unjobs.org/vacancies/123",
    date_posted := "Recent",
    source := "unjobs",
    scraped_at := "2025-10-12T00:00:00",
    search_term := "m&e",
    is_recent := false }

/-- The posting the ReliefWeb API adapter produces from
apiItemOffTopic. -/
def offTopicJob : Job :=
  { title := "astronaut",
    organization := "SpaceX",
    location := "Multiple Locations",
    url := "https://reliefweb.int/job/7",
    date_posted := "2025-10-10T00:00:00+00:00",
    source := "reliefweb",
    scraped_at := "2025-10-12T00:00:00",
    search_term := "m&e",
    is_recent := false }

/-! ## Theorems -/

/-! ## Substring facts used to reason about the strftime indicators -/
theorem isPrefixAt_mem {n h : List Char} (hp : isPrefixAt n h = true) :
    ∀ c ∈ n, c ∈ h := by
  induction n generalizing h with
  | nil => intro c hc; cases hc
  | cons a as ih =>
    cases h with
    | nil => simp [isPrefixAt] at hp
    | cons b bs =>
      rw [isPrefixAt, Bool.and_eq_true, beq_iff_eq] at hp
      obtain ⟨hab, hrest⟩ := hp
      intro c hc
      rcases List.mem_cons.mp hc with rfl | hc2
      · exact hab ▸ List.mem_cons_self _ _
      · exact List.mem_cons_of_mem _ (ih hrest c hc2)

theorem containsSub_mem {n h : List Char} (hp : containsSub n h = true) :
    ∀ c ∈ n, c ∈ h := by
  induction h with
  | nil =>
    rw [containsSub, List.isEmpty_iff] at hp
    subst hp; intro c hc; cases hc
  | cons b bs ih =>
    rw [containsSub, Bool.or_eq_true] at hp
    rcases hp with hpre | hrec
    · exact isPrefixAt_mem hpre
    · intro c hc; exact List.mem_cons_of_mem _ (ih hrec c hc)

theorem monthUpper_mem_fmt (d : Date) : monthUpper d.month ∈ fmtDateChars d := by
  unfold fmtDateChars monthAbbrev
  simp [List.mem_append, List.mem_cons]

/-- A character list that contains no upper-case month initial cannot
contain any strftime "%d %b %Y" rendering as a substring. -/
theorem containsSub_fmt_false (d : Date) (hay : List Char)
    (hno : ∀ m : Month, monthUpper m ∉ hay) :
    containsSub (fmtDateChars d) hay = false := by
  by_contra hne
  rw [Bool.not_eq_false] at hne
  exact hno d.month (containsSub_mem hne _ (monthUpper_mem_fmt d))

/-- Unfolding is_recent_job on nonempty text into its three groups of
indicators: the fixed phrases, todays date, the previous date. -/
theorem is_recent_job_eq (today prev : Date) (t : String) (ht : ¬ t = "") :
    is_recent_job today prev t =
      ((recentPhrases.any fun i => pyIn i (lowerString t))
        || pyIn (fmtDate today) (lowerString t)
        || pyIn (fmtDate prev) (lowerString t)) := by
  unfold is_recent_job
  rw [if_neg ht, List.any_append]
  simp [List.any_cons, List.any_nil, Bool.or_assoc]

theorem firstOccurrences_cons (a : Job) (l : List Job) :
    firstOccurrences (a :: l)
      = a :: firstOccurrences (l.filter fun x => x.url ≠ a.url) := by
  rw [firstOccurrences]

theorem dedup_go_eq_firstOccurrences (jobs : List Job) :
    ∀ seen, dedup_go jobs seen
      = firstOccurrences (jobs.filter fun j => j.url ∉ seen) := by
  induction jobs with
  | nil => intro seen; simp [dedup_go, firstOccurrences]
  | cons j rest ih =>
    intro seen
    rw [dedup_go, List.filter_cons]
    by_cases hmem : j.url ∈ seen
    · rw [if_pos hmem, if_neg (by simp [hmem])]
      exact ih seen
    · rw [if_neg hmem, if_pos (by simp [hmem]), firstOccurrences_cons,
        ih (j.url :: seen), List.filter_filter]
      congr 1
      congr 1
      apply List.filter_congr
      intro x _
      by_cases hx1 : x.url ∈ seen <;> by_cases hx2 : x.url = j.url <;>
        simp [List.mem_cons, hx1, hx2]

theorem dedup_go_sublist (jobs : List Job) :
    ∀ seen, (dedup_go jobs seen).Sublist jobs := by
  induction jobs with
  | nil => intro seen; simp [dedup_go]
  | cons j rest ih =>
    intro seen
    rw [dedup_go]
    by_cases hmem : j.url ∈ seen
    · rw [if_pos hmem]; exact (ih seen).cons j
    · rw [if_neg hmem]; exact (ih (j.url :: seen)).cons₂ j

theorem dedup_go_urls (jobs : List Job) :
    ∀ seen, (∀ x ∈ dedup_go jobs seen, x.url ∉ seen)
      ∧ (dedup_go jobs seen).Pairwise (fun a b => a.url ≠ b.url) := by
  induction jobs with
  | nil => intro seen; simp [dedup_go]
  | cons j rest ih =>
    intro seen
    rw [dedup_go]
    by_cases hmem : j.url ∈ seen
    · rw [if_pos hmem]; exact ih seen
    · rw [if_neg hmem]
      obtain ⟨ihmem, ihpw⟩ := ih (j.url :: seen)
      constructor
      · intro x hx
        rcases List.mem_cons.mp hx with rfl | hx2
        · exact hmem
        · exact fun hs => ihmem x hx2 (List.mem_cons_of_mem _ hs)
      · refine List.pairwise_cons.mpr ⟨?_, ihpw⟩
        intro x hx heq
        exact ihmem x hx (heq ▸ List.mem_cons_self _ _)

/-- C1: For every accumulated list of postings, the deduplication by url
keeps exactly the first occurrence of each url in first-seen order and
discards every later posting with the same url (whatever its
search_term); the result is a subsequence of the input and every url in
it is unique. -/
theorem c1_dedup_keeps_first_occurrence (jobs : List Job) :
    unique_jobs jobs = firstOccurrences jobs
      ∧ (unique_jobs jobs).Sublist jobs
      ∧ (unique_jobs jobs).Pairwise (fun a b => a.url ≠ b.url) := by
  refine ⟨?_, dedup_go_sublist jobs [], (dedup_go_urls jobs []).2⟩
  rw [unique_jobs, dedup_go_eq_firstOccurrences jobs []]
  congr 1
  simp

/-! ## Arithmetic facts about the scorers -/
/-- The fn.py threshold test relevance_score >= 0.2, written on the
integers: matches/23 >= 0.2 iff 23 <= 5*matches. -/
theorem fn_threshold_iff (j : Job) :
    ((0.2 : ℚ) ≤ raw_relevance_score j) ↔ 23 ≤ 5 * matchCount j := by
  have hlen : ((public_health_keywords.length : ℕ) : ℚ) = 23 := by
    norm_num [public_health_keywords]
  rw [raw_relevance_score, hlen, le_div_iff (by norm_num : (0 : ℚ) < 23)]
  constructor
  · intro h
    have h2 : (23 : ℚ) ≤ 5 * (matchCount j : ℚ) := by linarith
    exact_mod_cast h2
  · intro h
    have h2 : (23 : ℚ) ≤ 5 * (matchCount j : ℚ) := by exact_mod_cast h
    linarith

/-- The branch.py threshold test relevance_score >= 0.3, written on the
integers: matches/16 >= 0.3 iff 24 <= 5*matches. -/
theorem branch_threshold_iff (j : BJob) :
    ((0.3 : ℚ) ≤ branch_raw_relevance_score j) ↔ 24 ≤ 5 * branch_matchCount j := by
  have hlen : ((branch_public_health_keywords.length : ℕ) : ℚ) = 16 := by
    norm_num [branch_public_health_keywords]
  rw [branch_raw_relevance_score, hlen, le_div_iff (by norm_num : (0 : ℚ) < 16)]
  constructor
  · intro h
    have h2 : (24 : ℚ) ≤ 5 * (branch_matchCount j : ℚ) := by linarith
    exact_mod_cast h2
  · intro h
    have h2 : (24 : ℚ) ≤ 5 * (branch_matchCount j : ℚ) := by exact_mod_cast h
    linarith

/-- Unfolding of the fn.py filter on a job that reaches the threshold. -/
theorem filter_cons_kept (j : Job) (rest : List Job)
    (h : 23 ≤ 5 * matchCount j) :
    filter_public_health_jobs (j :: rest)
      = { j with relevance_score := some (fn_relevance_score j),
                 is_public_health := some true } :: filter_public_health_jobs rest := by
  rw [filter_public_health_jobs, if_pos ((fn_threshold_iff j).mpr h)]

/-- Unfolding of the fn.py filter on a job below the threshold: the job
is dropped from the returned list. -/
theorem filter_cons_dropped (j : Job) (rest : List Job)
    (h : 5 * matchCount j < 23) :
    filter_public_health_jobs (j :: rest) = filter_public_health_jobs rest := by
  rw [filter_public_health_jobs,
    if_neg (fun hc => absurd ((fn_threshold_iff j).mp hc) (by omega))]

theorem phk_split :
    public_health_keywords = phkA ++ "health" :: (phkB ++ "health" :: phkC) := rfl

theorem phk_dedup :
    public_health_keywords.dedup = phkA ++ (phkB ++ "health" :: phkC) := by decide

theorem branch_phk_dedup :
    branch_public_health_keywords.dedup = branch_public_health_keywords := by decide

/-- The fn.py scorer counts list entries, and "health" is listed twice:
its match count is the distinct-keyword count plus one exactly when
"health" occurs in the scored text. -/
theorem fn_matchCount_eq (j : Job) :
    matchCount j = fn_distinct_matches j
      + (if pyIn "health" (job_text j) = true then 1 else 0) := by
  rw [matchCount, fn_distinct_matches, phk_dedup, phk_split]
  simp only [List.filter_append, List.filter_cons, List.length_append]
  by_cases hp : pyIn "health" (job_text j) = true
  · simp [hp, List.length_append]
    omega
  · simp [hp, List.length_append]

theorem branch_matchCount_eq (j : BJob) :
    branch_matchCount j = branch_distinct_matches j := by
  rw [branch_matchCount, branch_distinct_matches, branch_phk_dedup]

theorem fn_raw_eq (j : Job) : raw_relevance_score j = (matchCount j : ℚ) / 23 := by
  rw [raw_relevance_score]
  norm_num [public_health_keywords]

theorem branch_raw_eq (j : BJob) :
    branch_raw_relevance_score j = (branch_matchCount j : ℚ) / 16 := by
  rw [branch_raw_relevance_score]
  norm_num [branch_public_health_keywords]

/-- C2 counterexample: on a text containing exactly one distinct
vocabulary keyword ("health"), the fn.py scorer assigns
round(2/23, 2) = 0.09 — the duplicated "health" entry is counted twice —
which is neither round(1/23, 2) = 0.04 (the 23-entry reading of the
vocabulary size) nor round(1/22, 2) = 0.05 (the 22-distinct reading), so
score = round(k/V, 2) fails for the fn.py scorer. -/
theorem c2_counterexample_duplicate_health :
    fn_distinct_matches healthOnlyJob = 1
      ∧ fn_relevance_score healthOnlyJob = 9 / 100
      ∧ pyRound2 ((1 : ℚ) / 23) = 4 / 100
      ∧ pyRound2 ((1 : ℚ) / 22) = 5 / 100
      ∧ (9 : ℚ) / 100 ≠ 4 / 100
      ∧ (9 : ℚ) / 100 ≠ 5 / 100 := by
  have hm : matchCount healthOnlyJob = 2 := by decide
  refine ⟨by decide, ?_, ?_, ?_, by norm_num, by norm_num⟩
  · rw [fn_relevance_score, fn_raw_eq, hm]
    norm_num [pyRound2, roundHalfEven]
  · norm_num [pyRound2, roundHalfEven]
  · norm_num [pyRound2, roundHalfEven]

/-- C2 amended: the score formula holds verbatim for the branch.py
scorer (16 keywords, all distinct): score = round(k/16, 2) for k
distinct keyword matches.  For the fn.py scorer the 23-entry list
contains "health" twice, and the scorer counts list entries, so
score = round((k+1)/23, 2) when "health" occurs in the scored text and
round(k/23, 2) otherwise, k being the number of distinct vocabulary
keywords in the text. -/
theorem c2_score_formula_amended :
    (∀ j : Job, fn_relevance_score j
        = pyRound2 (((fn_distinct_matches j : ℚ)
            + (if pyIn "health" (job_text j) = true then 1 else 0)) / 23))
      ∧ (∀ j : BJob, branch_relevance_score j
          = pyRound2 ((branch_distinct_matches j : ℚ) / 16)) := by
  constructor
  · intro j
    rw [fn_relevance_score, fn_raw_eq, fn_matchCount_eq]
    congr 1
    push_cast [apply_ite (fun n : ℕ => (n : ℚ))]
    ring_nf
  · intro j
    rw [branch_relevance_score, branch_raw_eq, branch_matchCount_eq]

/-! ## Bounds and idempotence of the rounded scores -/
theorem pyRound2_div23 (m : ℕ) (hm : m ≤ 23) :
    0 ≤ pyRound2 ((m : ℚ) / 23) ∧ pyRound2 ((m : ℚ) / 23) ≤ 1
      ∧ pyRound2 (pyRound2 ((m : ℚ) / 23)) = pyRound2 ((m : ℚ) / 23) := by
  interval_cases m <;> norm_num [pyRound2, roundHalfEven]

theorem pyRound2_div16 (m : ℕ) (hm : m ≤ 16) :
    0 ≤ pyRound2 ((m : ℚ) / 16) ∧ pyRound2 ((m : ℚ) / 16) ≤ 1
      ∧ pyRound2 (pyRound2 ((m : ℚ) / 16)) = pyRound2 ((m : ℚ) / 16) := by
  interval_cases m <;> norm_num [pyRound2, roundHalfEven]

/-- C4: the code lowercases the date text and then searches for the
mixed-case strftime indicator, which can never occur in a lower-cased
string; at evaluation date 12 Oct 2025 the input "12 Oct 2025" (the
current date, formatted exactly as the code formats it) is classified
not recent, against the claim. -/
theorem c4_date_indicator_never_matches :
    fmtDate evalToday = "12 Oct 2025"
      ∧ is_recent_job evalToday evalPrev "12 Oct 2025" = false := by
  exact ⟨by decide, by decide⟩

/-- C8: the classifier accepts "2 hours ago" (via the phrase
"hours ago"), rejects the empty string, and rejects "three weeks ago",
whatever the evaluation-time dates are. -/
theorem c8_recency_phrase_examples (today prev : Date) :
    is_recent_job today prev "2 hours ago" = true
      ∧ is_recent_job today prev "" = false
      ∧ is_recent_job today prev "three weeks ago" = false := by
  refine ⟨?_, by simp [is_recent_job], ?_⟩
  · rw [is_recent_job_eq _ _ _ (by decide)]
    have h : (recentPhrases.any fun i => pyIn i (lowerString "2 hours ago")) = true := by
      decide
    simp [h]
  · rw [is_recent_job_eq _ _ _ (by decide)]
    have h1 : (recentPhrases.any fun i => pyIn i (lowerString "three weeks ago")) = false := by
      decide
    have h2 : pyIn (fmtDate today) (lowerString "three weeks ago") = false := by
      show containsSub (fmtDateChars today) (lowerString "three weeks ago").data = false
      apply containsSub_fmt_false
      intro m; cases m <;> decide
    have h3 : pyIn (fmtDate prev) (lowerString "three weeks ago") = false := by
      show containsSub (fmtDateChars prev) (lowerString "three weeks ago").data = false
      apply containsSub_fmt_false
      intro m; cases m <;> decide
    simp [h1, h2, h3]

/-- The classifier never accepts the literal "Recent", whatever the
evaluation-time dates are. -/
theorem is_recent_Recent_false (today prev : Date) :
    is_recent_job today prev "Recent" = false := by
  rw [is_recent_job_eq _ _ _ (by decide)]
  have h1 : (recentPhrases.any fun i => pyIn i (lowerString "Recent")) = false := by decide
  have h2 : pyIn (fmtDate today) (lowerString "Recent") = false := by
    show containsSub (fmtDateChars today) (lowerString "Recent").data = false
    apply containsSub_fmt_false
    intro m; cases m <;> decide
  have h3 : pyIn (fmtDate prev) (lowerString "Recent") = false := by
    show containsSub (fmtDateChars prev) (lowerString "Recent").data = false
    apply containsSub_fmt_false
    intro m; cases m <;> decide
  simp [h1, h2, h3]

theorem extract_unjobs_date (env : BEnv) (el : UnjobsEl) (j0 : BJob)
    (h : extract_unjobs_job_data env el = some j0) : j0.date_posted = "Recent" := by
  rw [extract_unjobs_job_data] at h
  cases hh : el.heading <;> rw [hh] at h
  · simp at h
  · cases hl : el.linkHref <;> rw [hl] at h
    · simp at h
    · cases h; rfl

/-- C10: every posting the UNjobs adapter emits carries
date_posted = "Recent" and is therefore classified not recent, since
the classifier finds none of its indicators in "recent". -/
theorem c10_unjobs_never_recent (env : BEnv) (term : String) (maxJobs : Nat) :
    ∀ j ∈ scrape_unjobs env term maxJobs,
      j.date_posted = "Recent" ∧ j.is_recent = false := by
  intro j hj
  rw [scrape_unjobs] at hj
  cases hpage : env.unjobsPage term <;> rw [hpage] at hj
  · exact absurd hj (List.not_mem_nil j)
  · obtain ⟨el, hel, hex⟩ := List.mem_filterMap.mp hj
    cases hext : extract_unjobs_job_data env el <;> rw [hext] at hex
    · simp at hex
    · rename_i j0
      have hdp : j0.date_posted = "Recent" := extract_unjobs_date env el j0 hext
      cases hex
      refine ⟨hdp, ?_⟩
      show is_recent_job env.today env.prev j0.date_posted = false
      rw [hdp]
      exact is_recent_Recent_false env.today env.prev

theorem c10_unjobs_never_recent_witness :
    unjobsJobOut.date_posted = "Recent" ∧ unjobsJobOut.is_recent = false :=
  c10_unjobs_never_recent benvOne "m&e" 15 unjobsJobOut (by decide)

/-- C7 counterexample: the Devex adapter is a source adapter whose only
attempted request is the HTML search page — it has no structured-data
path at all, and it parses HTML although nothing failed (it returns a
posting from that parse). -/
theorem c7_counterexample_devex_html_only :
    (scrape_devexT envDevexOne "m&e" 15).1 = [Request.devexSearchPage]
      ∧ (scrape_devexT envDevexOne "m&e" 15).2 ≠ [] := by
  exact ⟨rfl, by decide⟩

/-- C7 amended: only the fn.py ReliefWeb adapter is structured-first:
its attempted-request trace always starts with the API request, the
HTML search page is requested exactly when the API call (request,
status check or JSON decode) raises, and in that case its result is the
HTML fallback result.  The Devex adapter parses HTML directly with no
structured attempt. -/
theorem c7_reliefweb_api_first_amended (env : Env) (term : String) (n : Nat) :
    (scrape_reliefwebT env term n).1
      = Request.reliefwebApi ::
          (if isOkE (env.api term n) = true then [] else [Request.reliefwebSearchPage])
      ∧ (isOkE (env.api term n) = false →
          (scrape_reliefwebT env term n).2 = (scrape_reliefweb_htmlT env term n).2) := by
  cases h : env.api term n with
  | ok items => simp [scrape_reliefwebT, h, isOkE]
  | error e => simp [scrape_reliefwebT, scrape_reliefweb_htmlT, h, isOkE]

theorem c7_reliefweb_api_first_amended_witness :
    (scrape_reliefwebT envAllFail "m&e" 20).1
        = [Request.reliefwebApi, Request.reliefwebSearchPage]
      ∧ (scrape_reliefwebT envAllFail "m&e" 20).2
        = (scrape_reliefweb_htmlT envAllFail "m&e" 20).2 := by
  obtain ⟨a, b⟩ := c7_reliefweb_api_first_amended envAllFail "m&e" 20
  exact ⟨by rw [a]; rfl, b rfl⟩

/-- C6: when the fetches behind one (term, site) pair raise — here the
ReliefWeb API call and its HTML fallback both fail — that pair yields
zero results and the site loop behaves as if the site were absent, the
other pairs being processed unchanged; and when every fetch of every
pair fails, the whole run still completes, returning the empty
collection instead of propagating an exception. -/
theorem c6_pair_failure_isolated (env : Env) (term : String) (sites : List String)
    (e1 e2 : String) (h1 : env.api term 20 = .error e1)
    (h2 : env.rwHtml term = .error e2) :
    scrape_reliefweb env term 20 = []
      ∧ scrape_development_sites env term sites
          = scrape_development_sites env term (sites.filter fun s => s ≠ "reliefweb")
      ∧ ((∀ t n, isOkE (env.api t n) = false) →
          (∀ t, isOkE (env.rwHtml t) = false) →
          (∀ t, isOkE (env.devexHtml t) = false) →
          ∀ terms sites2, run_main env terms sites2 = []) := by
  have hrw : scrape_reliefweb env term 20 = [] := by
    simp [scrape_reliefweb, scrape_reliefwebT, scrape_reliefweb_htmlT, h1, h2]
  refine ⟨hrw, ?_, ?_⟩
  · induction sites with
    | nil => rfl
    | cons s rest ih =>
      rw [scrape_development_sites, List.filter_cons]
      by_cases hs : s = "reliefweb"
      · subst hs
        simp [hrw, ih]
      · simp [scrape_development_sites, hs, ih]
  · intro ha hh hd terms sites2
    have hrelief : ∀ t, scrape_reliefweb env t 20 = [] := by
      intro t
      cases hapi : env.api t 20 with
      | ok items =>
        have hcontra := ha t 20
        rw [hapi] at hcontra
        simp [isOkE] at hcontra
      | error e =>
        cases hhtml : env.rwHtml t with
        | ok arts =>
          have hcontra := hh t
          rw [hhtml] at hcontra
          simp [isOkE] at hcontra
        | error e3 =>
          simp [scrape_reliefweb, scrape_reliefwebT, scrape_reliefweb_htmlT, hapi, hhtml]
    have hdevex : ∀ t, scrape_devex env t 15 = [] := by
      intro t
      cases hdx : env.devexHtml t with
      | ok page =>
        have hcontra := hd t
        rw [hdx] at hcontra
        simp [isOkE] at hcontra
      | error e3 => simp [scrape_devex, scrape_devexT, hdx]
    have hsites : ∀ t s2, scrape_development_sites env t s2 = [] := by
      intro t s2
      induction s2 with
      | nil => rfl
      | cons s rest ih =>
        rw [scrape_development_sites, ih, List.append_nil]
        by_cases hs1 : s = "reliefweb"
        · simp [hs1, hrelief t]
        · by_cases hs2 : s = "devex"
          · simp [hs1, hs2, hdevex t]
          · simp [hs1, hs2]
    have hmain : main_all_jobs env terms sites2 = [] := by
      rw [main_all_jobs]
      induction terms with
      | nil => rfl
      | cons t rest ih =>
        simp only [List.map_cons, List.join_cons]
        rw [hsites t sites2]
        simpa [filter_public_health_jobs] using ih
    rw [run_main, hmain]
    rfl

theorem c6_pair_failure_isolated_witness :
    scrape_reliefweb envAllFail "m&e" 20 = []
      ∧ scrape_development_sites envAllFail "m&e" ["reliefweb", "devex"]
          = scrape_development_sites envAllFail "m&e"
              (["reliefweb", "devex"].filter fun s => s ≠ "reliefweb")
      ∧ run_main envAllFail ["m&e", "monitoring and evaluation"]
          ["reliefweb", "devex", "unjobs"] = [] := by
  obtain ⟨a, b, c⟩ :=
    c6_pair_failure_isolated envAllFail "m&e" ["reliefweb", "devex"]
      "timeout" "timeout" rfl rfl
  exact ⟨a, b, c (fun _ _ => rfl) (fun _ => rfl) (fun _ => rfl) _ _⟩

theorem matchCount_jobME (n : Nat) : matchCount (jobME n) = 5 := rfl

theorem matchCount_le (j : Job) : matchCount j ≤ 23 := by
  have h := List.length_filter_le (fun k => pyIn k (job_text j)) public_health_keywords
  simpa [matchCount, public_health_keywords] using h

theorem branch_matchCount_le (j : BJob) : branch_matchCount j ≤ 16 := by
  have h := List.length_filter_le (fun k => pyIn k (branch_job_text j))
    branch_public_health_keywords
  simpa [branch_matchCount, branch_public_health_keywords] using h

/-- dedup is the identity on a list whose urls are already distinct and
avoid the seen set. -/
theorem dedup_go_id (l : List Job) :
    ∀ seen, (∀ x ∈ l, x.url ∉ seen) →
      l.Pairwise (fun a b => a.url ≠ b.url) → dedup_go l seen = l := by
  induction l with
  | nil => intro seen _ _; rfl
  | cons a rest ih =>
    intro seen hseen hpw
    rw [dedup_go, if_neg (hseen a (List.mem_cons_self _ _))]
    congr 1
    refine ih (a.url :: seen) ?_ (List.pairwise_cons.mp hpw).2
    intro x hx
    rw [List.mem_cons, not_or]
    exact ⟨fun he => (List.pairwise_cons.mp hpw).1 x hx he.symm,
      hseen x (List.mem_cons_of_mem _ hx)⟩

theorem unique_jobs_of_pairwise (l : List Job)
    (h : l.Pairwise (fun a b => a.url ≠ b.url)) : unique_jobs l = l :=
  dedup_go_id l [] (by simp) h

/-- C3 supporting computation: the full fn.py run on envSixItems. -/
theorem run_main_six :
    run_main envSixItems ["monitoring and evaluation"] ["reliefweb"]
      = [tagME 1, tagME 2, tagME 3, tagME 4, tagME 5, tagME 6] := by
  have hscrape : scrape_development_sites envSixItems "monitoring and evaluation"
      ["reliefweb"] = [jobME 1, jobME 2, jobME 3, jobME 4, jobME 5, jobME 6] := by
    decide
  have hfil : filter_public_health_jobs
        [jobME 1, jobME 2, jobME 3, jobME 4, jobME 5, jobME 6]
      = [tagME 1, tagME 2, tagME 3, tagME 4, tagME 5, tagME 6] := by
    rw [filter_cons_kept _ _ (by rw [matchCount_jobME]; omega),
        filter_cons_kept _ _ (by rw [matchCount_jobME]; omega),
        filter_cons_kept _ _ (by rw [matchCount_jobME]; omega),
        filter_cons_kept _ _ (by rw [matchCount_jobME]; omega),
        filter_cons_kept _ _ (by rw [matchCount_jobME]; omega),
        filter_cons_kept _ _ (by rw [matchCount_jobME]; omega)]
    rfl
  have hpw : ([tagME 1, tagME 2, tagME 3, tagME 4, tagME 5, tagME 6] : List Job).Pairwise
      (fun a b => a.url ≠ b.url) := by decide
  rw [run_main, main_all_jobs]
  simp only [List.map_cons, List.map_nil, List.join_cons, List.join_nil]
  rw [hscrape, hfil, List.append_nil]
  exact unique_jobs_of_pairwise _ hpw

/-- C3: on a run configured with one term, the ReliefWeb site and
per-call limit 5, whose API response holds six items, main returns six
postings: the configured limit is read from the UI but never handed to
the adapters, which run with their defaults, so "at most 5" fails (the
source and score-nonnegativity parts of the claim do hold on this
run). -/
theorem c3_limit_not_enforced :
    (run_main envSixItems ["monitoring and evaluation"] ["reliefweb"]).length = 6
      ∧ (run_main envSixItems ["monitoring and evaluation"] ["reliefweb"]).all
          (fun j => decide (j.source = "reliefweb")
            && decide ((0 : ℚ) ≤ j.relevance_score.getD 0)) = true := by
  have hscore : ∀ n, (0 : ℚ) ≤ fn_relevance_score (jobME n) := by
    intro n
    rw [fn_relevance_score, fn_raw_eq, matchCount_jobME]
    exact (pyRound2_div23 5 (by norm_num)).1
  constructor
  · rw [run_main_six]; rfl
  · rw [run_main_six]
    simp only [List.all_cons, List.all_nil, Bool.and_eq_true, decide_eq_true_eq,
      Bool.and_true]
    refine ⟨⟨rfl, ?_⟩, ⟨rfl, ?_⟩, ⟨rfl, ?_⟩, ⟨rfl, ?_⟩, ⟨rfl, ?_⟩, ⟨rfl, ?_⟩⟩ <;>
      simpa [tagME] using hscore _

/-- C5 counterexample: the adapters produce one posting, whose score is
below the threshold, and the collection main retains is empty — the
below-threshold posting was dropped inside the pipeline by
filter_public_health_jobs, not kept for a presentation-layer filter. -/
theorem c5_counterexample_below_threshold_dropped :
    scrape_development_sites envOffTopic "m&e" ["reliefweb"] = [offTopicJob]
      ∧ run_main envOffTopic ["m&e"] ["reliefweb"] = [] := by
  have hs : scrape_development_sites envOffTopic "m&e" ["reliefweb"] = [offTopicJob] := by
    decide
  refine ⟨hs, ?_⟩
  rw [run_main, main_all_jobs]
  simp only [List.map_cons, List.map_nil, List.join_cons, List.join_nil]
  rw [hs, filter_cons_dropped _ _ (by decide)]
  rfl

/-- C5 amended: relevance filtering is destructive inside the pipeline:
filter_public_health_jobs returns exactly the postings whose unrounded
score reaches the hard-coded 0.2 threshold, each tagged with its
rounded relevance_score and is_public_health = true; the
below-threshold postings are not in the returned (and hence not in the
aggregated) collection.  Only the recency filter is a presentation-view
filter. -/
theorem c5_filter_drops_below_threshold_amended (jobs : List Job) :
    filter_public_health_jobs jobs
      = (jobs.filter fun j => (0.2 : ℚ) ≤ raw_relevance_score j).map
          (fun j => { j with relevance_score := some (fn_relevance_score j),
                             is_public_health := some true }) := by
  induction jobs with
  | nil => rfl
  | cons a rest ih =>
    rw [filter_public_health_jobs, List.filter_cons]
    by_cases hc : (0.2 : ℚ) ≤ raw_relevance_score a
    · simp [hc, ih]
    · simp [hc, ih]

theorem fn_filter_score (jobs : List Job) :
    ∀ j ∈ filter_public_health_jobs jobs,
      ∃ q : ℚ, j.relevance_score = some q ∧ 0 ≤ q ∧ q ≤ 1 ∧ pyRound2 q = q := by
  induction jobs with
  | nil => intro j hj; simp [filter_public_health_jobs] at hj
  | cons a rest ih =>
    intro j hj
    rw [filter_public_health_jobs] at hj
    by_cases hc : (0.2 : ℚ) ≤ raw_relevance_score a
    · rw [if_pos hc] at hj
      rcases List.mem_cons.mp hj with rfl | hj2
      · refine ⟨fn_relevance_score a, by simp, ?_, ?_, ?_⟩
        · rw [fn_relevance_score, fn_raw_eq]
          exact (pyRound2_div23 _ (matchCount_le a)).1
        · rw [fn_relevance_score, fn_raw_eq]
          exact (pyRound2_div23 _ (matchCount_le a)).2.1
        · rw [fn_relevance_score, fn_raw_eq]
          exact (pyRound2_div23 _ (matchCount_le a)).2.2
      · exact ih j hj2
    · rw [if_neg hc] at hj
      exact ih j hj

theorem branch_filter_score (jobs : List BJob) :
    ∀ j ∈ branch_filter_public_health_jobs jobs,
      ∃ q : ℚ, j.relevance_score = some q ∧ 0 ≤ q ∧ q ≤ 1 ∧ pyRound2 q = q := by
  induction jobs with
  | nil => intro j hj; simp [branch_filter_public_health_jobs] at hj
  | cons a rest ih =>
    intro j hj
    rw [branch_filter_public_health_jobs] at hj
    by_cases hc : (0.3 : ℚ) ≤ branch_raw_relevance_score a
    · rw [if_pos hc] at hj
      rcases List.mem_cons.mp hj with rfl | hj2
      · refine ⟨branch_relevance_score a, by simp, ?_, ?_, ?_⟩
        · rw [branch_relevance_score, branch_raw_eq]
          exact (pyRound2_div16 _ (branch_matchCount_le a)).1
        · rw [branch_relevance_score, branch_raw_eq]
          exact (pyRound2_div16 _ (branch_matchCount_le a)).2.1
        · rw [branch_relevance_score, branch_raw_eq]
          exact (pyRound2_div16 _ (branch_matchCount_le a)).2.2
      · exact ih j hj2
    · rw [if_neg hc] at hj
      exact ih j hj

theorem run_main_score (env : Env) (terms sites : List String) :
    ∀ j ∈ run_main env terms sites,
      ∃ q : ℚ, j.relevance_score = some q ∧ 0 ≤ q ∧ q ≤ 1 ∧ pyRound2 q = q := by
  intro j hj
  rw [run_main, unique_jobs] at hj
  have hj2 : j ∈ main_all_jobs env terms sites := (dedup_go_sublist _ []).subset hj
  rw [main_all_jobs] at hj2
  obtain ⟨l, hl, hjl⟩ := List.mem_join.mp hj2
  obtain ⟨t, ht, rfl⟩ := List.mem_map.mp hl
  exact fn_filter_score _ j hjl

/-- C9: every posting emitted by the fn.py relevance filter, by the
branch.py relevance filter, and by the full fn.py run carries a
relevance_score q with 0 <= q <= 1 and round(q, 2) = q. -/
theorem c9_relevance_score_bounds :
    (∀ jobs : List Job, ∀ j ∈ filter_public_health_jobs jobs,
        ∃ q : ℚ, j.relevance_score = some q ∧ 0 ≤ q ∧ q ≤ 1 ∧ pyRound2 q = q)
      ∧ (∀ jobs : List BJob, ∀ j ∈ branch_filter_public_health_jobs jobs,
          ∃ q : ℚ, j.relevance_score = some q ∧ 0 ≤ q ∧ q ≤ 1 ∧ pyRound2 q = q)
      ∧ (∀ (env : Env) (terms sites : List String), ∀ j ∈ run_main env terms sites,
          ∃ q : ℚ, j.relevance_score = some q ∧ 0 ≤ q ∧ q ≤ 1 ∧ pyRound2 q = q) :=
  ⟨fn_filter_score, branch_filter_score, run_main_score⟩

theorem c9_relevance_score_bounds_witness :
    ∃ q : ℚ, (tagME 1).relevance_score = some q ∧ 0 ≤ q ∧ q ≤ 1 ∧ pyRound2 q = q := by
  have hmem : tagME 1 ∈ filter_public_health_jobs [jobME 1] := by
    rw [filter_cons_kept _ _ (by rw [matchCount_jobME]; omega)]
    exact List.mem_cons_self _ _
  exact c9_relevance_score_bounds.1 [jobME 1] (tagME 1) hmem
